import Mathlib

/-!
Shallow embedding of the opensnitch-tui controller core (Rust) in Lean 4.

Each definition mirrors one Rust item from the repository sources:
models (rule, operator, connection, node, alert, statistics, firewall),
the SQLite store (db/sqlite.rs, db/queries.rs), the gRPC UI service
(grpc/service.rs, grpc/notifications.rs) and the state actor
(app/state.rs).  Machine integers are modelled as Nat (none of the
verified properties involve overflow); wall-clock instants
(chrono DateTime of Utc) are abstracted as Nat ticks threaded as a
`now` parameter where the source calls Utc::now(); tokio channels are
modelled as explicit queues.
-/

namespace OpensnitchTui

/-! ### Models of the Rust std string operations used by the sources -/

/-- Model of ASCII lowercasing of one character (the sources only ever
compare against ASCII keywords, so Unicode lowercasing beyond ASCII is
irrelevant to the matches being modelled). -/
def asciiLower (c : Char) : Char :=
  if 'A' ≤ c ∧ c ≤ 'Z' then Char.ofNat (c.toNat + 32) else c

/-- Model of Rust str::to_lowercase. -/
def strLower (s : String) : String := ⟨s.data.map asciiLower⟩

/-- Split a character list at every occurrence of the separator
(model of Rust str::split; always returns at least one group). -/
def splitChars (sep : Char) : List Char → List (List Char)
  | [] => [[]]
  | c :: rest =>
    let r := splitChars sep rest
    if c = sep then [] :: r
    else
      match r with
      | [] => [[c]]
      | g :: gs => (c :: g) :: gs

/-- Model of Rust s.rsplit(sep).next().unwrap_or(s): the substring after
the last separator, or the whole string when the separator is absent. -/
def lastSplitComponent (sep : Char) (s : String) : String :=
  ⟨(splitChars sep s.data).getLastD s.data⟩

/-- Model of Rust bool::to_string. -/
def boolStr (b : Bool) : String := if b then "true" else "false"

/-- Model of Rust String::is_empty. -/
def strIsEmpty (s : String) : Bool := s.data.isEmpty

/-- Model of Rust Vec::join(sep) on strings. -/
def joinWith (sep : String) (l : List String) : String :=
  match l with
  | [] => ""
  | x :: xs => xs.foldl (fun acc s => acc ++ sep ++ s) x

/-! ### models/operator.rs -/

/-- Rust enum OperatorType (models/operator.rs). -/
inductive OperatorType where
  | simple
  | regexp
  | network
  | list
  | lists
deriving DecidableEq, Repr

/-- Default for OperatorType is Simple (models/operator.rs). -/
def OperatorType.default : OperatorType := .simple

/-- Display impl for OperatorType (models/operator.rs). -/
def OperatorType.display : OperatorType → String
  | .simple => "simple"
  | .regexp => "regexp"
  | .network => "network"
  | .list => "list"
  | .lists => "lists"

/-- Rust impl From of a string slice for OperatorType: lowercase the
input, match the five known names, and fall back to Simple
(models/operator.rs lines 33-44). -/
def OperatorType.fromStr (s : String) : OperatorType :=
  let l := strLower s
  if l = "simple" then .simple
  else if l = "regexp" then .regexp
  else if l = "network" then .network
  else if l = "list" then .list
  else if l = "lists" then .lists
  else .simple

/-- Rust struct Operator (models/operator.rs): a matcher with a type,
an operand name, a data payload, a case-sensitivity flag and a nested
operator list for composite matchers.  An inductive type because the
nesting is recursive. -/
inductive Operator where
  | mk (op_type : OperatorType) (operand : String) (data : String)
       (sensitive : Bool) (list : List Operator)

/-- Projection of the op_type field. -/
def Operator.op_type : Operator → OperatorType
  | .mk t _ _ _ _ => t

/-- Projection of the operand field. -/
def Operator.operand : Operator → String
  | .mk _ o _ _ _ => o

/-- Projection of the data field. -/
def Operator.data : Operator → String
  | .mk _ _ d _ _ => d

/-- Projection of the sensitive field. -/
def Operator.sensitive : Operator → Bool
  | .mk _ _ _ s _ => s

/-- Projection of the nested operator list field. -/
def Operator.list : Operator → List Operator
  | .mk _ _ _ _ l => l

/-- Rust Operator::new (models/operator.rs): sensitive false, empty
nested list. -/
def Operator.new (op_type : OperatorType) (operand data : String) : Operator :=
  .mk op_type operand data false []

/-- Rust Operator::simple. -/
def Operator.simple (operand data : String) : Operator :=
  Operator.new .simple operand data

/-- Rust Operator::list: a composite operator of type List with operand
"list", empty data and the given nested operators
(models/operator.rs lines 221-229). -/
def Operator.mkList (operators : List Operator) : Operator :=
  .mk .list "list" "" false operators

/-! ### models/rule.rs -/

/-- Rust enum RuleAction. -/
inductive RuleAction where
  | allow
  | deny
  | reject
deriving DecidableEq, Repr

/-- Display impl for RuleAction: lowercase names (models/rule.rs). -/
def RuleAction.display : RuleAction → String
  | .allow => "allow"
  | .deny => "deny"
  | .reject => "reject"

/-- Rust impl From of a string slice for RuleAction: lowercase, match
the three known names, fall back to Allow (models/rule.rs lines 31-40). -/
def RuleAction.fromStr (s : String) : RuleAction :=
  let l := strLower s
  if l = "allow" then .allow
  else if l = "deny" then .deny
  else if l = "reject" then .reject
  else .allow

/-- Rust enum RuleDuration. -/
inductive RuleDuration where
  | once
  | untilRestart
  | always
  | fiveMinutes
  | fifteenMinutes
  | thirtyMinutes
  | oneHour
  | twelveHours
  | twentyFourHours
deriving DecidableEq, Repr

/-- Display impl for RuleDuration (models/rule.rs). -/
def RuleDuration.display : RuleDuration → String
  | .once => "once"
  | .untilRestart => "until restart"
  | .always => "always"
  | .fiveMinutes => "5m"
  | .fifteenMinutes => "15m"
  | .thirtyMinutes => "30m"
  | .oneHour => "1h"
  | .twelveHours => "12h"
  | .twentyFourHours => "24h"

/-- Rust impl From of a string slice for RuleDuration: lowercase, match
the nine known names, fall back to Once (models/rule.rs lines 87-102). -/
def RuleDuration.fromStr (s : String) : RuleDuration :=
  let l := strLower s
  if l = "once" then .once
  else if l = "until restart" then .untilRestart
  else if l = "always" then .always
  else if l = "5m" then .fiveMinutes
  else if l = "15m" then .fifteenMinutes
  else if l = "30m" then .thirtyMinutes
  else if l = "1h" then .oneHour
  else if l = "12h" then .twelveHours
  else if l = "24h" then .twentyFourHours
  else .once

/-- Rust struct Rule (models/rule.rs).  The created and updated
timestamps are abstract Nat instants (see the file header). -/
structure Rule where
  name : String
  description : String
  enabled : Bool
  precedence : Bool
  nolog : Bool
  action : RuleAction
  duration : RuleDuration
  operator : Operator
  created : Nat
  updated : Option Nat

/-- Rust Rule::new (models/rule.rs lines 160-173): description empty,
enabled true, precedence false, nolog false, created stamped with the
current instant, updated unset. -/
def Rule.new (now : Nat) (name : String) (action : RuleAction)
    (duration : RuleDuration) (operator : Operator) : Rule :=
  { name := name
    description := ""
    enabled := true
    precedence := false
    nolog := false
    action := action
    duration := duration
    operator := operator
    created := now
    updated := none }

/-! ### models/connection.rs -/

/-- Rust struct Connection (models/connection.rs).  HashMap fields are
association lists; the optional display timestamp is an abstract
instant. -/
structure Connection where
  protocol : String
  src_ip : String
  src_port : Nat
  dst_ip : String
  dst_host : String
  dst_port : Nat
  user_id : Nat
  process_id : Nat
  process_path : String
  process_cwd : String
  process_args : List String
  process_env : List (String × String)
  process_checksums : List (String × String)
  process_tree : List (String × Nat)
  timestamp : Option Nat
  action : Option String
  rule_name : Option String

/-- A connection with every field empty or zero (Rust derive Default). -/
def Connection.default : Connection :=
  { protocol := "", src_ip := "", src_port := 0, dst_ip := "",
    dst_host := "", dst_port := 0, user_id := 0, process_id := 0,
    process_path := "", process_cwd := "", process_args := [],
    process_env := [], process_checksums := [], process_tree := [],
    timestamp := none, action := none, rule_name := none }

/-- Rust Connection::process_name (models/connection.rs lines 80-85):
the component of process_path after the last slash. -/
def Connection.process_name (c : Connection) : String :=
  lastSplitComponent '/' c.process_path

/-- Rust struct Event (models/connection.rs): a connection, its matched
rule if any, a time string (abstracted to the instant) and a
unix-nanoseconds stamp. -/
structure Event where
  time : Nat
  connection : Connection
  rule : Option Rule
  unix_nano : Int

/-- Rust Event::new: stamps both time fields with the current instant. -/
def Event.new (now : Nat) (connection : Connection) (rule : Option Rule) : Event :=
  { time := now, connection := connection, rule := rule, unix_nano := now }

/-! ### models/firewall.rs -/

/-- Rust struct StatementValue. -/
structure StatementValue where
  key : String
  value : String

/-- Rust struct Statement (nftables statement). -/
structure FwStatement where
  op : String
  name : String
  values : List StatementValue

/-- Rust struct Expression. -/
structure Expression where
  statement : FwStatement

/-- Rust struct FwRule (models/firewall.rs). -/
structure FwRule where
  table : String
  chain : String
  uuid : String
  enabled : Bool
  position : Nat
  description : String
  parameters : String
  expressions : List Expression
  target : String
  target_parameters : String

/-- Rust struct FwChain (models/firewall.rs). -/
structure FwChain where
  name : String
  table : String
  family : String
  priority : String
  chain_type : String
  hook : String
  policy : String
  rules : List FwRule

/-- Rust struct FwChains (models/firewall.rs). -/
structure FwChains where
  rule : Option FwRule
  chains : List FwChain

/-- Rust struct SysFirewall (models/firewall.rs lines 136-144). -/
structure SysFirewall where
  enabled : Bool
  running : Bool
  version : Nat
  input_policy : String
  output_policy : String
  forward_policy : String
  system_rules : List FwChains

/-! ### models/alert.rs -/

/-- Rust enum AlertPriority. -/
inductive AlertPriority where
  | low
  | medium
  | high
deriving DecidableEq, Repr

/-- Rust enum AlertType. -/
inductive AlertType where
  | error
  | warning
  | info
deriving DecidableEq, Repr

/-- Rust enum AlertAction. -/
inductive AlertAction where
  | none
  | showAlert
  | saveToDb
deriving DecidableEq, Repr

/-- Rust enum AlertWhat. -/
inductive AlertWhat where
  | generic
  | procMonitor
  | firewall
  | connection
  | rule
  | netlink
  | kernelEvent
deriving DecidableEq, Repr

/-- Rust struct Process (models/connection.rs). -/
structure Process where
  pid : Nat
  ppid : Nat
  uid : Nat
  comm : String
  path : String
  args : List String
  env : List (String × String)
  cwd : String
  checksums : List (String × String)
  io_reads : Nat
  io_writes : Nat
  net_reads : Nat
  net_writes : Nat
  process_tree : List (String × Nat)

/-- Rust enum AlertData (models/alert.rs). -/
inductive AlertData where
  | text (s : String)
  | process (p : Process)
  | connection (c : Connection)
  | rule (r : Rule)
  | firewallRule (r : FwRule)

/-- Rust struct Alert (models/alert.rs); timestamp abstracted to an
instant. -/
structure Alert where
  id : Nat
  alert_type : AlertType
  action : AlertAction
  priority : AlertPriority
  what : AlertWhat
  data : Option AlertData
  node : String
  timestamp : Nat
  acknowledged : Bool

/-- Rust Connection::destination (models/connection.rs lines 68-74). -/
def Connection.destination (c : Connection) : String :=
  if strIsEmpty c.dst_host then c.dst_ip ++ ":" ++ toString c.dst_port
  else c.dst_host ++ ":" ++ toString c.dst_port

/-- Rust Alert::text (models/alert.rs lines 183-194). -/
def Alert.text (a : Alert) : String :=
  match a.data with
  | some (.text s) => s
  | some (.connection c) => c.process_name ++ " -> " ++ c.destination
  | some (.rule r) => "Rule: " ++ r.name
  | some (.process p) => "Process: " ++ p.comm ++ " (" ++ toString p.pid ++ ")"
  | some (.firewallRule r) => "FW Rule: " ++ r.description
  | none => ""

/-- Debug rendering of AlertType used by insert_alert's format of the
variant name (Rust derive Debug). -/
def AlertType.debugStr : AlertType → String
  | .error => "Error"
  | .warning => "Warning"
  | .info => "Info"

/-- Debug rendering of AlertAction (Rust derive Debug). -/
def AlertAction.debugStr : AlertAction → String
  | .none => "None"
  | .showAlert => "ShowAlert"
  | .saveToDb => "SaveToDb"

/-- Debug rendering of AlertPriority (Rust derive Debug). -/
def AlertPriority.debugStr : AlertPriority → String
  | .low => "Low"
  | .medium => "Medium"
  | .high => "High"

/-- Debug rendering of AlertWhat (Rust derive Debug). -/
def AlertWhat.debugStr : AlertWhat → String
  | .generic => "Generic"
  | .procMonitor => "ProcMonitor"
  | .firewall => "Firewall"
  | .connection => "Connection"
  | .rule => "Rule"
  | .netlink => "Netlink"
  | .kernelEvent => "KernelEvent"

/-! ### models/statistics.rs -/

/-- Rust struct Statistics (models/statistics.rs); HashMap counters as
association lists. -/
structure Statistics where
  daemon_version : String
  rules : Nat
  uptime : Nat
  dns_responses : Nat
  connections : Nat
  ignored : Nat
  accepted : Nat
  dropped : Nat
  rule_hits : Nat
  rule_misses : Nat
  by_proto : List (String × Nat)
  by_address : List (String × Nat)
  by_host : List (String × Nat)
  by_port : List (String × Nat)
  by_uid : List (String × Nat)
  by_executable : List (String × Nat)
  events : List Event

/-! ### models/node.rs -/

/-- Rust enum NodeStatus. -/
inductive NodeStatus where
  | connected
  | disconnected
  | connecting
  | error
deriving DecidableEq, Repr

/-- Rust struct Node (models/node.rs); the two timestamps are abstract
instants. -/
structure Node where
  addr : String
  name : String
  version : String
  status : NodeStatus
  firewall_running : Bool
  log_level : Nat
  config : String
  rules : List Rule
  firewall : Option SysFirewall
  statistics : Option Statistics
  last_seen : Nat
  connected_at : Option Nat
  notifications_enabled : Bool

/-- Rust struct ClientConfig (models/node.rs). -/
structure ClientConfig where
  id : Nat
  name : String
  version : String
  is_firewall_running : Bool
  config : String
  log_level : Nat
  rules : List Rule
  system_firewall : Option SysFirewall

/-- Rust Node::new (models/node.rs lines 53-69): status Connecting,
everything else empty, last_seen stamped now. -/
def Node.new (now : Nat) (addr : String) : Node :=
  { addr := addr, name := "", version := "", status := .connecting,
    firewall_running := false, log_level := 0, config := "", rules := [],
    firewall := none, statistics := none, last_seen := now,
    connected_at := none, notifications_enabled := false }

/-- Rust Node::update_from_config (models/node.rs lines 71-82). -/
def Node.update_from_config (now : Nat) (n : Node) (config : ClientConfig) : Node :=
  { n with
    name := config.name
    version := config.version
    firewall_running := config.is_firewall_running
    log_level := config.log_level
    config := config.config
    rules := config.rules
    firewall := config.system_firewall
    status := .connected
    connected_at := some now
    last_seen := now }

/-- Rust Node::disconnect: only flips the status to Disconnected. -/
def Node.disconnect (n : Node) : Node :=
  { n with status := .disconnected }

/-- Rust Node::update_stats (models/node.rs lines 88-91). -/
def Node.update_stats (now : Nat) (n : Node) (stats : Statistics) : Node :=
  { n with statistics := some stats, last_seen := now }

/-- Rust struct NodeManager (models/node.rs): HashMap of address to
Node modelled as an association list with unique keys, plus the active
cursor. -/
structure NodeManager where
  nodes : List (String × Node)
  active_node : Option String

/-- Rust NodeManager::new (derive Default). -/
def NodeManager.new : NodeManager := { nodes := [], active_node := none }

/-- Look up the entry for a key in an association list (model of
HashMap::get). -/
def assocGet (k : String) : List (String × Node) → Option Node
  | [] => none
  | (k', n) :: rest => if k' = k then some n else assocGet k rest

/-- Apply a function to the entry for a key if it is present (model of
HashMap::get_mut followed by a mutation). -/
def assocUpdate (k : String) (f : Node → Node) :
    List (String × Node) → List (String × Node)
  | [] => []
  | (k', n) :: rest =>
    if k' = k then (k', f n) :: rest else (k', n) :: assocUpdate k f rest

/-- Rust NodeManager::add_node (models/node.rs lines 141-155): insert a
fresh node with notifications_enabled true if the address is absent,
update the (new or existing) node from the config, and make it active
when no node is active yet. -/
def NodeManager.add_node (now : Nat) (m : NodeManager) (addr : String)
    (config : ClientConfig) : NodeManager :=
  let nodes :=
    match assocGet addr m.nodes with
    | some _ => assocUpdate addr (fun n => n.update_from_config now config) m.nodes
    | none =>
      m.nodes ++ [(addr, Node.update_from_config now
        { Node.new now addr with notifications_enabled := true } config)]
  let active := match m.active_node with
    | none => some addr
    | some a => some a
  { nodes := nodes, active_node := active }

/-- Rust NodeManager::remove_node (models/node.rs lines 157-169): mark
the node Disconnected (keeping its record), and when it was the active
node, move the cursor to the first remaining Connected node (in map
iteration order) or unset it. -/
def NodeManager.remove_node (m : NodeManager) (addr : String) : NodeManager :=
  let nodes := assocUpdate addr Node.disconnect m.nodes
  let active :=
    if m.active_node = some addr then
      (nodes.find? (fun p => p.2.status = .connected)).map (·.1)
    else m.active_node
  { nodes := nodes, active_node := active }

/-! ### grpc/notifications.rs -/

/-- Rust enum NotificationAction (grpc/notifications.rs). -/
inductive NotificationAction where
  | enableInterception
  | disableInterception
  | enableFirewall
  | disableFirewall
  | reloadFwRules
  | changeConfig (config : String)
  | enableRule (name : String)
  | disableRule (name : String)
  | deleteRule (name : String)
  | changeRule (rule : Rule)
  | setLogLevel (level : Nat)
  | stop
  | taskStart (name : String) (data : String)
  | taskStop (name : String)

/-- Modelled from the spec: the protobuf Action enum ordinals are
generated at build time from the daemon schema (not under src/); §6 of
the specification fixes them as EnableInterception=0 through
TaskStop=13.  NotificationAction::to_proto_action maps each variant to
its ordinal (grpc/notifications.rs lines 27-44). -/
def NotificationAction.to_proto_action : NotificationAction → Nat
  | .enableInterception => 0
  | .disableInterception => 1
  | .enableFirewall => 2
  | .disableFirewall => 3
  | .reloadFwRules => 4
  | .changeConfig _ => 5
  | .enableRule _ => 6
  | .disableRule _ => 7
  | .deleteRule _ => 8
  | .changeRule _ => 9
  | .setLogLevel _ => 10
  | .stop => 11
  | .taskStart _ _ => 12
  | .taskStop _ => 13

/-- Payload of a notification's data field.  The source serializes some
payloads through serde_json; the exact JSON text is irrelevant to every
verified property, so serialized payloads are kept symbolic. -/
inductive NotifData where
  | empty
  | text (s : String)
  | ruleJson (r : Rule)
  | taskStartJson (name data : String)
  | taskStopJson (name : String)

/-- Rust NotificationAction::data (grpc/notifications.rs lines 47-63). -/
def NotificationAction.payload : NotificationAction → NotifData
  | .changeConfig config => .text config
  | .enableRule name => .text name
  | .disableRule name => .text name
  | .deleteRule name => .text name
  | .changeRule rule => .ruleJson rule
  | .setLogLevel level => .text (toString level)
  | .taskStart name data => .taskStartJson name data
  | .taskStop name => .taskStopJson name
  | _ => .empty

/-- Rust NotificationAction::rules (grpc/notifications.rs lines 66-71). -/
def NotificationAction.rulesOf : NotificationAction → List Rule
  | .changeRule rule => [rule]
  | _ => []

/-- Rust proto::Notification as populated by create_notification. -/
structure Notification where
  id : Nat
  client_name : String
  server_name : String
  type_ : Nat
  data : NotifData
  rules : List Rule
  sys_firewall : Option SysFirewall

/-- Rust create_notification (grpc/notifications.rs lines 75-91). -/
def create_notification (id : Nat) (client_name server_name : String)
    (action : NotificationAction) (firewall : Option SysFirewall) : Notification :=
  { id := id
    client_name := client_name
    server_name := server_name
    type_ := action.to_proto_action
    data := action.payload
    rules := action.rulesOf
    sys_firewall := firewall }

/-! ### grpc/service.rs -/

/-- State-actor commands (Rust enum AppMessage, app/state.rs lines
18-95).  The notification channel carried by NotificationChannelOpened
is modelled as an explicit bounded queue (see NotifChannel below); the
oneshot reply sender of ConnectionPrompt is represented by the pending
prompt entry itself. -/
structure NotifChannel where
  capacity : Nat
  buffered : List Notification

/-- Rust enum AppMessage (app/state.rs). -/
inductive AppMessage where
  | nodeConnected (addr : String) (config : ClientConfig)
  | nodeDisconnected (addr : String)
  | statsUpdate (node_addr : String) (stats : Statistics)
  | notificationChannelOpened (node_addr : String) (tx : NotifChannel)
  | notificationReply (node_addr : String) (id : Nat) (code : Int) (data : String)
  | connectionEvent (node_addr : String) (event : Event)
  | newConnection (node_addr : String) (connection : Connection)
  | connectionPrompt (node_addr : String) (connection : Connection)
  | ruleAdded (node_addr : String) (rule : Rule)
  | ruleModified (node_addr : String) (rule : Rule)
  | ruleDeleted (node_addr : String) (name : String)
  | ruleToggled (node_addr : String) (name : String) (enabled : Bool)
  | firewallConfigUpdate (node_addr : String) (config : SysFirewall)
  | alertReceived (alert : Alert)
  | sendNotification (node_addr : String) (action : NotificationAction)
  | promptResponse (rule : Rule)

/-- Rust enum UiUpdateSignal (app/state.rs lines 98-108). -/
inductive UiUpdateSignal where
  | nodeChanged
  | statsUpdated
  | connectionsUpdated
  | rulesUpdated
  | firewallUpdated
  | alertsUpdated
  | promptReceived
  | redraw
deriving DecidableEq, Repr

/-- Configuration fields of Rust UiService (grpc/service.rs lines
24-30); the state handles and timeout are not part of the pure model. -/
structure UiService where
  default_action : RuleAction
  default_duration : RuleDuration

/-- Rust UiService::new (grpc/service.rs lines 33-44): default action
Allow, default duration Once. -/
def UiService.new : UiService :=
  { default_action := .allow, default_duration := .once }

/-- Rust UiService::create_default_rule (grpc/service.rs lines 46-53):
a rule named process-name dash dst_port, with the service's default
action and duration and a simple process.path operator carrying the
connection's process path. -/
def UiService.create_default_rule (svc : UiService) (now : Nat)
    (conn : Connection) : Rule :=
  Rule.new now (conn.process_name ++ "-" ++ toString conn.dst_port)
    svc.default_action svc.default_duration
    (Operator.simple "process.path" conn.process_path)

/-- Rust UiService::ask_rule (grpc/service.rs lines 86-111): sends one
NewConnection command for the peer to the state actor and replies with
the default rule.  The model returns the list of emitted commands and
the reply. -/
def UiService.ask_rule (svc : UiService) (now : Nat) (peer : String)
    (connection : Connection) : List AppMessage × Rule :=
  ([AppMessage.newConnection peer connection],
   svc.create_default_rule now connection)

/-! ### ui/dialogs/prompt.rs -/

/-- Rust struct PromptDialog (ui/dialogs/prompt.rs lines 20-42),
restricted to the fields create_rule and the resolution paths read; the
oneshot response sender is abstracted to the produced rule. -/
structure PromptDialog where
  connection : Connection
  node_addr : String
  action : RuleAction
  duration : RuleDuration
  match_dest_host : Bool
  match_dest_ip : Bool
  match_dest_port : Bool
  match_user : Bool
  match_checksum : Bool

/-- Rust PromptDialog::new (ui/dialogs/prompt.rs lines 52-74): action
Allow, duration Once, only match_dest_host preselected. -/
def PromptDialog.new (connection : Connection) (node_addr : String) : PromptDialog :=
  { connection := connection, node_addr := node_addr,
    action := .allow, duration := .once,
    match_dest_host := true, match_dest_ip := false,
    match_dest_port := false, match_user := false, match_checksum := false }

/-- Model of HashMap::get on a string association list (used for the
md5 checksum lookup in create_rule). -/
def assocGetStr (k : String) : List (String × String) → Option String
  | [] => none
  | (k', v) :: rest => if k' = k then some v else assocGetStr k rest

/-- The optional matcher operators create_rule appends after the base
process.path operator (ui/dialogs/prompt.rs lines 253-274): dest.host
and dest.ip only when selected and non-empty, dest.port and user.id
whenever selected, process.hash.md5 when selected and the checksum map
has an md5 entry. -/
def PromptDialog.optionalOps (d : PromptDialog) : List Operator :=
  (if d.match_dest_host ∧ ¬ strIsEmpty d.connection.dst_host then
    [Operator.simple "dest.host" d.connection.dst_host] else []) ++
  (if d.match_dest_ip ∧ ¬ strIsEmpty d.connection.dst_ip then
    [Operator.simple "dest.ip" d.connection.dst_ip] else []) ++
  (if d.match_dest_port then
    [Operator.simple "dest.port" (toString d.connection.dst_port)] else []) ++
  (if d.match_user then
    [Operator.simple "user.id" (toString d.connection.user_id)] else []) ++
  (match d.match_checksum, assocGetStr "md5" d.connection.process_checksums with
   | true, some md5 => [Operator.simple "process.hash.md5" md5]
   | _, _ => [])

/-- Rust PromptDialog::create_rule (ui/dialogs/prompt.rs lines
235-289): name is process-name dash first-dst_host-label-or-dst_ip; the
operator vector always starts with simple(process.path); a single-entry
vector is used bare, otherwise the entries are wrapped in a List
operator with operand "list". -/
def PromptDialog.create_rule (d : PromptDialog) (now : Nat) : Rule :=
  let name := d.connection.process_name ++ "-" ++
    (if ¬ strIsEmpty d.connection.dst_host then
      ⟨(splitChars '.' d.connection.dst_host.data).headD "unknown".data⟩
    else d.connection.dst_ip)
  let operators :=
    Operator.simple "process.path" d.connection.process_path :: d.optionalOps
  let operator :=
    if operators.length = 1 then
      operators.headD (Operator.simple "" "")
    else
      Operator.mk .list "list" "" false operators
  Rule.new now name d.action d.duration operator

/-- Rust PromptDialog::confirm (ui/dialogs/prompt.rs lines 216-222):
sends create_rule's result into the reply channel; the model returns
the rule sent. -/
def PromptDialog.confirmRule (d : PromptDialog) (now : Nat) : Rule :=
  d.create_rule now

/-- Rust PromptDialog::cancel (ui/dialogs/prompt.rs lines 224-233):
sends create_rule's result with action forced to Allow and duration
forced to Once. -/
def PromptDialog.cancelRule (d : PromptDialog) (now : Nat) : Rule :=
  { d.create_rule now with action := .allow, duration := .once }

/-! ### db/sqlite.rs, db/queries.rs, db/schema.rs

The SQLite store is modelled relationally: each table is a list of row
records whose columns follow the schema in db/schema.rs (TEXT columns
are String except the abstracted time columns, which carry the instant
that the source renders to RFC 3339).  INSERT OR REPLACE under a UNIQUE
constraint deletes any conflicting row and appends the new one, which
is exactly SQLite's documented behaviour. -/

/-- Row of the connections table (db/schema.rs). -/
structure ConnRow where
  time : Nat
  node : String
  action : String
  protocol : String
  src_ip : String
  src_port : String
  dst_ip : String
  dst_host : String
  dst_port : String
  uid : String
  pid : String
  process : String
  process_args : String
  process_cwd : String
  rule : String

/-- Row of the rules table (db/schema.rs). -/
structure RuleRow where
  time : Nat
  node : String
  name : String
  enabled : String
  precedence : String
  action : String
  duration : String
  operator_type : String
  operator_sensitive : String
  operator_operand : String
  operator_data : String
  description : String
  nolog : String
  created : Nat

/-- Row of the alerts table (db/schema.rs). -/
structure AlertRow where
  time : Nat
  node : String
  type_ : String
  action : String
  priority : String
  what : String
  body : String
  status : Nat

/-- Rust struct Database (db/sqlite.rs): the five counter tables map a
key to its hit count. -/
structure Database where
  connections : List ConnRow
  rules : List RuleRow
  alerts : List AlertRow
  hosts : List (String × Nat)
  procs : List (String × Nat)
  addrs : List (String × Nat)
  ports : List (String × Nat)
  users : List (String × Nat)

/-- Rust Database::open on a fresh path or :memory: yields empty
tables (db/sqlite.rs lines 23-43). -/
def Database.openEmpty : Database :=
  { connections := [], rules := [], alerts := [],
    hosts := [], procs := [], addrs := [], ports := [], users := [] }

/-- Upsert on a counter table (db/queries.rs UPDATE_STATS_*): insert
the key with one hit, or increment the existing row's hits. -/
def upsertCounter (k : String) : List (String × Nat) → List (String × Nat)
  | [] => [(k, 1)]
  | (k', h) :: rest =>
    if k' = k then (k', h + 1) :: rest else (k', h) :: upsertCounter k rest

/-- The UNIQUE key of the connections table (db/schema.rs): every
column except time, dst_host, process_cwd and rule. -/
def ConnRow.sameUniqueKey (a b : ConnRow) : Bool :=
  a.node = b.node ∧ a.action = b.action ∧ a.protocol = b.protocol ∧
  a.src_ip = b.src_ip ∧ a.src_port = b.src_port ∧ a.dst_ip = b.dst_ip ∧
  a.dst_port = b.dst_port ∧ a.uid = b.uid ∧ a.pid = b.pid ∧
  a.process = b.process ∧ a.process_args = b.process_args

/-- Rust Database::insert_connection (db/sqlite.rs lines 46-83):
INSERT OR REPLACE of the event's row (node column left empty by this
call), then upsert of the hosts (when dst_host non-empty), procs,
addrs (when dst_ip non-empty), ports and users counters. -/
def Database.insert_connection (db : Database) (event : Event) : Database :=
  let c := event.connection
  let row : ConnRow :=
    { time := event.time
      node := ""
      action := (event.rule.map (fun r => r.action.display)).getD ""
      protocol := c.protocol
      src_ip := c.src_ip
      src_port := toString c.src_port
      dst_ip := c.dst_ip
      dst_host := c.dst_host
      dst_port := toString c.dst_port
      uid := toString c.user_id
      pid := toString c.process_id
      process := c.process_path
      process_args := joinWith " " c.process_args
      process_cwd := c.process_cwd
      rule := (event.rule.map (fun r => r.name)).getD "" }
  { db with
    connections :=
      (db.connections.filter (fun r => ¬ r.sameUniqueKey row)) ++ [row]
    hosts := if ¬ strIsEmpty c.dst_host then upsertCounter c.dst_host db.hosts
             else db.hosts
    procs := upsertCounter c.process_path db.procs
    addrs := if ¬ strIsEmpty c.dst_ip then upsertCounter c.dst_ip db.addrs
             else db.addrs
    ports := upsertCounter (toString c.dst_port) db.ports
    users := upsertCounter (toString c.user_id) db.users }

/-- The rules row written by insert_rule for a node and rule
(db/sqlite.rs lines 86-110): the time column stamped now, booleans
rendered by bool::to_string, enums by their Display impls. -/
def mkRuleRow (now : Nat) (node : String) (rule : Rule) : RuleRow :=
  { time := now
    node := node
    name := rule.name
    enabled := boolStr rule.enabled
    precedence := boolStr rule.precedence
    action := rule.action.display
    duration := rule.duration.display
    operator_type := rule.operator.op_type.display
    operator_sensitive := boolStr rule.operator.sensitive
    operator_operand := rule.operator.operand
    operator_data := rule.operator.data
    description := rule.description
    nolog := boolStr rule.nolog
    created := rule.created }

/-- Rust Database::insert_rule (db/sqlite.rs lines 86-110): INSERT OR
REPLACE keyed on UNIQUE(node, name). -/
def Database.insert_rule (db : Database) (now : Nat) (node : String)
    (rule : Rule) : Database :=
  { db with rules :=
      (db.rules.filter (fun r => ¬ (r.node = node ∧ r.name = rule.name))) ++
      [mkRuleRow now node rule] }

/-- Rust Database::update_rule (db/sqlite.rs lines 113-136): UPDATE of
every column except created, keyed by node and name. -/
def Database.update_rule (db : Database) (now : Nat) (node : String)
    (rule : Rule) : Database :=
  { db with rules := db.rules.map (fun r =>
      if r.node = node ∧ r.name = rule.name then
        { r with
          time := now
          enabled := boolStr rule.enabled
          precedence := boolStr rule.precedence
          action := rule.action.display
          duration := rule.duration.display
          operator_type := rule.operator.op_type.display
          operator_sensitive := boolStr rule.operator.sensitive
          operator_operand := rule.operator.operand
          operator_data := rule.operator.data
          description := rule.description
          nolog := boolStr rule.nolog }
      else r) }

/-- Rust Database::delete_rule (db/sqlite.rs lines 139-143). -/
def Database.delete_rule (db : Database) (node name : String) : Database :=
  { db with rules :=
      db.rules.filter (fun r => ¬ (r.node = node ∧ r.name = name)) }

/-- Rust Database::insert_alert (db/sqlite.rs lines 146-164): enums are
stored via their Debug renderings, the body via Alert::text, the
acknowledged flag as 0 or 1. -/
def Database.insert_alert (db : Database) (alert : Alert) : Database :=
  { db with alerts := db.alerts ++
      [{ time := alert.timestamp
         node := alert.node
         type_ := alert.alert_type.debugStr
         action := alert.action.debugStr
         priority := alert.priority.debugStr
         what := alert.what.debugStr
         body := alert.text
         status := if alert.acknowledged then 1 else 0 }] }

/-- Rust Database::row_to_rule (db/sqlite.rs lines 355-391): decode the
bool columns by comparison with "true", the enum columns through the
From-of-string impls, and leave the nested operator list empty (the
schema has no column for it). -/
def rowToRule (r : RuleRow) : Rule :=
  { name := r.name
    description := r.description
    enabled := r.enabled = "true"
    precedence := r.precedence = "true"
    nolog := r.nolog = "true"
    action := RuleAction.fromStr r.action
    duration := RuleDuration.fromStr r.duration
    operator := Operator.mk (OperatorType.fromStr r.operator_type)
      r.operator_operand r.operator_data (r.operator_sensitive = "true") []
    created := r.created
    updated := none }

/-- Insertion of a row into a list sorted by the name column
(kernel-computable model of the ORDER BY name in SELECT_RULES; SQLite
guarantees only the name ordering, which insertion sort realizes). -/
def insertByName (r : RuleRow) : List RuleRow → List RuleRow
  | [] => [r]
  | x :: xs => if r.name ≤ x.name then r :: x :: xs else x :: insertByName r xs

/-- Sort rule rows by name (see insertByName). -/
def sortRowsByName (l : List RuleRow) : List RuleRow :=
  l.foldr insertByName []

/-- Rust Database::select_rules (db/sqlite.rs lines 229-241 with query
SELECT_RULES of db/queries.rs): the rows of the node, ordered by name,
decoded through row_to_rule. -/
def Database.select_rules (db : Database) (node : String) : List Rule :=
  (sortRowsByName (db.rules.filter (fun r => r.node = node))).map rowToRule

/-! ### app/state.rs -/

/-- A pending prompt entry (Rust struct PendingPrompt, app/state.rs
lines 111-115); the oneshot reply sender is identified with the entry,
so dropping the sink is removing the entry. -/
structure PendingPrompt where
  connection : Connection
  node_addr : String

/-- Model of HashMap::get on the notification channel map. -/
def chanGet (k : String) : List (String × NotifChannel) → Option NotifChannel
  | [] => none
  | (k', c) :: rest => if k' = k then some c else chanGet k rest

/-- Model of HashMap::insert on the notification channel map: replace
the entry when present, append otherwise. -/
def chanInsert (k : String) (v : NotifChannel) :
    List (String × NotifChannel) → List (String × NotifChannel)
  | [] => [(k, v)]
  | (k', c) :: rest =>
    if k' = k then (k', v) :: rest else (k', c) :: chanInsert k v rest

/-- Rust struct AppState (app/state.rs lines 118-131): the VecDeque
rings are lists with the newest entry at the head; the notification id
generator is the next id to hand out. -/
structure AppState where
  nodes : NodeManager
  connections : List Event
  alerts : List Alert
  pending_prompts : List PendingPrompt
  notification_channels : List (String × NotifChannel)
  notification_id_gen : Nat
  db : Database
  max_connections : Nat
  max_alerts : Nat

/-- Rust AppState::new (app/state.rs lines 134-147): empty state, id
generator starting at 1, ring capacities 1000 and 500. -/
def AppState.new (db : Database) : AppState :=
  { nodes := NodeManager.new
    connections := []
    alerts := []
    pending_prompts := []
    notification_channels := []
    notification_id_gen := 1
    db := db
    max_connections := 1000
    max_alerts := 500 }

/-- Rust AppState::add_connection (app/state.rs lines 153-164):
push_front onto the ring, then pop_back while the length exceeds
max_connections (equivalently, keep the first max_connections
entries), then persist through insert_connection (a persistence error
is logged and swallowed, so the pure model always records the row). -/
def AppState.add_connection (st : AppState) (event : Event) : AppState :=
  { st with
    connections := (event :: st.connections).take st.max_connections
    db := st.db.insert_connection event }

/-- Rust AppState::add_alert (app/state.rs lines 166-177): same capped
push discipline as add_connection with max_alerts. -/
def AppState.add_alert (st : AppState) (alert : Alert) : AppState :=
  { st with
    alerts := (alert :: st.alerts).take st.max_alerts
    db := st.db.insert_alert alert }

/-- Outcome of AppState::send_notification, making the tokio channel
semantics explicit: a missing queue drops the command with a warning;
an existing queue receives the notification through Sender::send,
which enqueues when capacity is free and otherwise suspends the caller
until capacity appears (tokio's bounded send never drops). -/
inductive SendOutcome where
  | droppedNoChannel
  | delivered
  | awaitsCapacity
deriving DecidableEq, Repr

/-- Rust AppState::send_notification (app/state.rs lines 184-200): look
up the peer's outbound queue; when absent, log a warning and do
nothing; when present, draw the next notification id and send the
notification built by create_notification with server name
"opensnitch-tui" and no firewall payload. -/
def AppState.send_notification (st : AppState) (node_addr : String)
    (action : NotificationAction) : AppState × SendOutcome :=
  match chanGet node_addr st.notification_channels with
  | none => (st, .droppedNoChannel)
  | some ch =>
    let notification := create_notification st.notification_id_gen node_addr
      "opensnitch-tui" action none
    let st := { st with notification_id_gen := st.notification_id_gen + 1 }
    if ch.buffered.length < ch.capacity then
      let ch := { ch with buffered := ch.buffered ++ [notification] }
      ({ st with notification_channels :=
          chanInsert node_addr ch st.notification_channels },
       .delivered)
    else
      (st, .awaitsCapacity)

/-- Model of the get_node_mut then mutate pattern of the state-manager
arms: apply a mutation to the addressed node when it exists. -/
def NodeManager.updateNode (m : NodeManager) (addr : String)
    (f : Node → Node) : NodeManager :=
  { m with nodes := assocUpdate addr f m.nodes }

/-- Model of the iter_mut().find(name matches) then overwrite pattern
of the RuleModified arm: replace the first rule with the given rule's
name, leaving the list unchanged when no rule matches. -/
def replaceFirstByName (rule : Rule) : List Rule → List Rule
  | [] => []
  | r :: rest =>
    if r.name = rule.name then rule :: rest
    else r :: replaceFirstByName rule rest

/-- Model of the iter_mut().find(name matches) then set-enabled pattern
of the RuleToggled arm. -/
def setEnabledFirstByName (name : String) (enabled : Bool) : List Rule → List Rule
  | [] => []
  | r :: rest =>
    if r.name = name then { r with enabled := enabled } :: rest
    else r :: setEnabledFirstByName name enabled rest

/-- One iteration of the Rust state-manager loop (run_state_manager,
app/state.rs lines 204-375): process a command, returning the new
state and the UI change signals emitted for it, in emission order. -/
def processMessage (now : Nat) (st : AppState) (msg : AppMessage) :
    AppState × List UiUpdateSignal :=
  match msg with
  | .nodeConnected addr config =>
    ({ st with nodes := st.nodes.add_node now addr config },
     [.nodeChanged])
  | .nodeDisconnected addr =>
    ({ st with
        nodes := st.nodes.remove_node addr
        notification_channels :=
          st.notification_channels.filter (fun p => ¬ p.1 = addr) },
     [.nodeChanged])
  | .statsUpdate node_addr stats =>
    let has_events := ¬ stats.events.isEmpty
    let st := stats.events.foldl AppState.add_connection st
    let st := { st with nodes := st.nodes.updateNode node_addr (fun n => n.update_stats now stats) }
    (st, [.statsUpdated] ++ if has_events then [.connectionsUpdated] else [])
  | .notificationChannelOpened node_addr tx =>
    ({ st with notification_channels :=
        chanInsert node_addr tx st.notification_channels },
     [])
  | .notificationReply _ _ _ _ =>
    (st, [])
  | .connectionPrompt node_addr connection =>
    ({ st with pending_prompts := st.pending_prompts ++
        [{ connection := connection, node_addr := node_addr }] },
     [.promptReceived])
  | .connectionEvent _ event =>
    (st.add_connection event, [.connectionsUpdated])
  | .newConnection _ connection =>
    (st.add_connection (Event.new now connection none), [.connectionsUpdated])
  | .ruleAdded node_addr rule =>
    let st := { st with nodes := st.nodes.updateNode node_addr (fun n => { n with rules := n.rules ++ [rule] }) }
    ({ st with db := st.db.insert_rule now node_addr rule }, [.rulesUpdated])
  | .ruleModified node_addr rule =>
    let st := { st with nodes := st.nodes.updateNode node_addr (fun n => { n with rules := replaceFirstByName rule n.rules }) }
    ({ st with db := st.db.update_rule now node_addr rule }, [.rulesUpdated])
  | .ruleDeleted node_addr name =>
    let st := { st with nodes := st.nodes.updateNode node_addr (fun n => { n with rules := n.rules.filter (fun r => ¬ r.name = name) }) }
    ({ st with db := st.db.delete_rule node_addr name }, [.rulesUpdated])
  | .ruleToggled node_addr name enabled =>
    ({ st with nodes := st.nodes.updateNode node_addr (fun n => { n with rules := setEnabledFirstByName name enabled n.rules }) },
     [.rulesUpdated])
  | .firewallConfigUpdate node_addr config =>
    ({ st with nodes := st.nodes.updateNode node_addr (fun n => { n with firewall := some config }) },
     [.firewallUpdated])
  | .alertReceived alert =>
    (st.add_alert alert, [.alertsUpdated])
  | .sendNotification node_addr action =>
    ((st.send_notification node_addr action).1, [])
  | .promptResponse _ =>
    (st, [])

/-- The state reached after the actor drains a list of commands in
order (the loop of run_state_manager). -/
def runMessages (now : Nat) (st : AppState) (msgs : List AppMessage) : AppState :=
  msgs.foldl (fun s m => (processMessage now s m).1) st

/-- The change signals each command arm of run_state_manager emits,
read off the source arm by arm: every arm sends exactly the listed
signals after its mutation and persistence, and the StatsUpdate arm
adds ConnectionsUpdated exactly when the push carried events. -/
def expectedSignals : AppMessage → List UiUpdateSignal
  | .nodeConnected _ _ => [.nodeChanged]
  | .nodeDisconnected _ => [.nodeChanged]
  | .statsUpdate _ stats =>
    [.statsUpdated] ++ (if stats.events.isEmpty then [] else [.connectionsUpdated])
  | .notificationChannelOpened _ _ => []
  | .notificationReply _ _ _ _ => []
  | .connectionPrompt _ _ => [.promptReceived]
  | .connectionEvent _ _ => [.connectionsUpdated]
  | .newConnection _ _ => [.connectionsUpdated]
  | .ruleAdded _ _ => [.rulesUpdated]
  | .ruleModified _ _ => [.rulesUpdated]
  | .ruleDeleted _ _ => [.rulesUpdated]
  | .ruleToggled _ _ _ => [.rulesUpdated]
  | .firewallConfigUpdate _ _ => [.firewallUpdated]
  | .alertReceived _ => [.alertsUpdated]
  | .sendNotification _ _ => []
  | .promptResponse _ => []

/-! ### Concrete sample data used by counterexamples and witnesses -/

/-- The connection of the specification's monitor-mode scenario:
curl to port 443 over tcp. -/
def curlConn : Connection :=
  { Connection.default with
    protocol := "tcp", process_path := "/usr/bin/curl", dst_port := 443 }

/-- A connection whose destination host is example.com (used to select
exactly one optional matcher in the prompt dialog). -/
def hostConn : Connection :=
  { Connection.default with
    protocol := "tcp", process_path := "/usr/bin/curl",
    dst_host := "example.com", dst_ip := "93.184.216.34", dst_port := 443 }

/-- A prompt dialog in its initial state for hostConn: exactly the
dest.host matcher is selected (the constructor's default). -/
def promptOneMatcher : PromptDialog :=
  PromptDialog.new hostConn "unix:/tmp/osui.sock"

/-- A prompt dialog with no effective optional matcher: dest.host is
selected by default but curlConn has an empty destination host. -/
def promptNoMatcher : PromptDialog :=
  PromptDialog.new curlConn "unix:/tmp/osui.sock"

/-- An empty statistics record (Rust Statistics::new, derive Default). -/
def Statistics.empty : Statistics :=
  { daemon_version := "", rules := 0, uptime := 0, dns_responses := 0,
    connections := 0, ignored := 0, accepted := 0, dropped := 0,
    rule_hits := 0, rule_misses := 0, by_proto := [], by_address := [],
    by_host := [], by_port := [], by_uid := [], by_executable := [],
    events := [] }

/-- A sample event carrying curlConn. -/
def sampleEvent : Event :=
  { time := 0, connection := curlConn, rule := none, unix_nano := 0 }

/-- A statistics push carrying one event. -/
def oneEventStats : Statistics :=
  { Statistics.empty with events := [sampleEvent] }

/-- A minimal client configuration (Rust derive Default with a name). -/
def sampleConfig : ClientConfig :=
  { id := 0, name := "daemon", version := "1.6.0",
    is_firewall_running := false, config := "", log_level := 0,
    rules := [], system_firewall := none }

/-- The node at address A after subscribing with sampleConfig. -/
def nodeA : Node :=
  Node.update_from_config 0
    { Node.new 0 "A" with notifications_enabled := true } sampleConfig

/-- A state with node A connected and active, one pending prompt for A
and an open notification channel for A. -/
def stWithPrompt : AppState :=
  { AppState.new Database.openEmpty with
    nodes := { nodes := [("A", nodeA)], active_node := some "A" }
    pending_prompts := [{ connection := curlConn, node_addr := "A" }]
    notification_channels := [("A", { capacity := 100, buffered := [] })] }

/-- A notification used to pre-fill a queue. -/
def dummyNotif : Notification :=
  create_notification 0 "A" "opensnitch-tui" .enableInterception none

/-- A state whose outbound queue for A is full (capacity 100, one
hundred buffered notifications). -/
def fullChanState : AppState :=
  { AppState.new Database.openEmpty with
    notification_channels :=
      [("A", { capacity := 100, buffered := List.replicate 100 dummyNotif })] }

/-- A state with an open, empty queue for A. -/
def emptyChanState : AppState :=
  { AppState.new Database.openEmpty with
    notification_channels := [("A", { capacity := 100, buffered := [] })] }

/-- A fresh state whose connection ring capacity is lowered to two, to
exercise the eviction characterization on a small input. -/
def smallRingState : AppState :=
  { AppState.new Database.openEmpty with max_connections := 2 }

/-- Three distinguishable events. -/
def ev1 : Event := { time := 1, connection := Connection.default, rule := none, unix_nano := 1 }

/-- Second sample event. -/
def ev2 : Event := { time := 2, connection := Connection.default, rule := none, unix_nano := 2 }

/-- Third sample event. -/
def ev3 : Event := { time := 3, connection := Connection.default, rule := none, unix_nano := 3 }

/-- A rule whose operator is a composite list operator (as the prompt
dialog produces when matchers are selected). -/
def listOpRule : Rule :=
  Rule.new 0 "curl-example" .allow .once
    (Operator.mkList [Operator.simple "process.path" "/usr/bin/curl",
                      Operator.simple "dest.host" "example.com"])

/-- A rule exercising all four boolean columns with a sensitive
operator. -/
def boolRule : Rule :=
  { Rule.new 0 "bools" .deny .always (Operator.mk .simple "dest.host" "x" true []) with
    enabled := false, precedence := true, nolog := true }

/-! ### Helper lemmas (shared; not claim theorems) -/

/-- Decoding the Display rendering of a rule action restores it. -/
theorem ruleAction_fromStr_display (a : RuleAction) :
    RuleAction.fromStr a.display = a := by
  cases a <;> decide

/-- Decoding the Display rendering of a rule duration restores it. -/
theorem ruleDuration_fromStr_display (d : RuleDuration) :
    RuleDuration.fromStr d.display = d := by
  cases d <;> decide

/-- Decoding the Display rendering of an operator type restores it. -/
theorem operatorType_fromStr_display (t : OperatorType) :
    OperatorType.fromStr t.display = t := by
  cases t <;> decide

/-- Comparing the bool::to_string rendering with "true" restores the
boolean. -/
theorem decide_boolStr_eq_true (b : Bool) :
    decide (boolStr b = "true") = b := by
  cases b <;> decide

/-! ### C1: monitor-mode AskRule -/

/-- C1: for every AskRule call the handler emits exactly one
NewConnection command for the peer and returns a rule with duration
"once", action "allow" and a simple operator on process.path carrying
the connection's process path; the rule name is the final path
component of process_path (Connection.process_name is by definition
the component after the last slash), a dash, and the decimal dst_port.
The concrete scenario of the specification is instantiated in the last
conjunct: process path /usr/bin/curl and port 443 give the name
curl-443. -/
theorem c1_ask_rule_monitor_mode :
    (∀ (now : Nat) (peer : String) (conn : Connection),
      (UiService.new.ask_rule now peer conn).1 =
        [AppMessage.newConnection peer conn] ∧
      (UiService.new.ask_rule now peer conn).2.duration = .once ∧
      (UiService.new.ask_rule now peer conn).2.action = .allow ∧
      (UiService.new.ask_rule now peer conn).2.operator =
        Operator.simple "process.path" conn.process_path ∧
      (UiService.new.ask_rule now peer conn).2.name =
        conn.process_name ++ "-" ++ toString conn.dst_port) ∧
    (UiService.new.ask_rule 0 "unix:/tmp/osui.sock" curlConn).2.name = "curl-443" := by
  constructor
  · intro now peer conn
    exact ⟨rfl, rfl, rfl, rfl, rfl⟩
  · decide

/-! ### C8: string decoders are total with defined defaults -/

/-- C8: decoding a rule-action, operator-type or rule-duration string
never rejects; every string whose lowercasing is not one of the known
variant names decodes to the default (allow, simple, once
respectively). -/
theorem c8_decoders_default_on_unknown :
    (∀ s : String, strLower s ≠ "allow" → strLower s ≠ "deny" →
      strLower s ≠ "reject" → RuleAction.fromStr s = .allow) ∧
    (∀ s : String, strLower s ≠ "simple" → strLower s ≠ "regexp" →
      strLower s ≠ "network" → strLower s ≠ "list" → strLower s ≠ "lists" →
      OperatorType.fromStr s = .simple) ∧
    (∀ s : String, strLower s ≠ "once" → strLower s ≠ "until restart" →
      strLower s ≠ "always" → strLower s ≠ "5m" → strLower s ≠ "15m" →
      strLower s ≠ "30m" → strLower s ≠ "1h" → strLower s ≠ "12h" →
      strLower s ≠ "24h" → RuleDuration.fromStr s = .once) := by
  refine ⟨?_, ?_, ?_⟩
  · intro s h1 h2 h3
    simp only [RuleAction.fromStr]
    rw [if_neg h1, if_neg h2, if_neg h3]
  · intro s h1 h2 h3 h4 h5
    simp only [OperatorType.fromStr]
    rw [if_neg h1, if_neg h2, if_neg h3, if_neg h4, if_neg h5]
  · intro s h1 h2 h3 h4 h5 h6 h7 h8 h9
    simp only [RuleDuration.fromStr]
    rw [if_neg h1, if_neg h2, if_neg h3, if_neg h4, if_neg h5, if_neg h6,
        if_neg h7, if_neg h8, if_neg h9]

/-- Witness for C8 at the concrete unknown input "frobnicate". -/
theorem c8_witness :
    RuleAction.fromStr "frobnicate" = .allow ∧
    OperatorType.fromStr "frobnicate" = .simple ∧
    RuleDuration.fromStr "frobnicate" = .once := by
  refine ⟨c8_decoders_default_on_unknown.1 "frobnicate" ?_ ?_ ?_,
          c8_decoders_default_on_unknown.2.1 "frobnicate" ?_ ?_ ?_ ?_ ?_,
          c8_decoders_default_on_unknown.2.2 "frobnicate" ?_ ?_ ?_ ?_ ?_ ?_ ?_ ?_ ?_⟩
  all_goals decide

/-! ### C9 / C10: shape of the prompt-synthesized operator -/

/-- Shared shape lemma for create_rule: the produced operator is the
bare base process.path operator exactly when no optional matcher is
effective, and otherwise the list operator wrapping the base operator
followed by the selected matchers. -/
theorem createRule_operator_shape (d : PromptDialog) (now : Nat) :
    (d.optionalOps = [] →
      (d.create_rule now).operator =
        Operator.simple "process.path" d.connection.process_path) ∧
    (d.optionalOps ≠ [] →
      (d.create_rule now).operator =
        Operator.mk .list "list" "" false
          (Operator.simple "process.path" d.connection.process_path ::
            d.optionalOps)) := by
  constructor
  · intro h
    simp only [PromptDialog.create_rule, Rule.new, h]
    rfl
  · intro h
    obtain ⟨o, rest, h'⟩ : ∃ o rest, d.optionalOps = o :: rest := by
      cases hop : d.optionalOps with
      | nil => exact absurd hop h
      | cons o rest => exact ⟨o, rest, rfl⟩
    simp only [PromptDialog.create_rule, Rule.new, h']
    rfl

/-- C9 counterexample: with exactly one selected optional matcher
(dest.host on a dialog in its initial state for a connection with a
non-empty destination host), the produced operator is a list operator,
not the bare simple operator the claim requires. -/
theorem c9_counterexample :
    promptOneMatcher.optionalOps.length = 1 ∧
    (promptOneMatcher.create_rule 0).operator.op_type = .list ∧
    OperatorType.list ≠ OperatorType.simple := by
  refine ⟨rfl, rfl, by decide⟩

/-- C9 amended: the rule built from the prompt always carries the base
simple process.path matcher; the bare-simple shape arises exactly when
no optional matcher is selected and effective, and with one or more
selected matchers the operator is a list operator with operand "list"
whose nested list is the base process.path operator followed by one
simple operator per selected matcher. -/
theorem c9_prompt_operator_shape (d : PromptDialog) (now : Nat) :
    (d.optionalOps = [] →
      (d.create_rule now).operator =
        Operator.simple "process.path" d.connection.process_path) ∧
    (d.optionalOps ≠ [] →
      (d.create_rule now).operator =
        Operator.mk .list "list" "" false
          (Operator.simple "process.path" d.connection.process_path ::
            d.optionalOps)) := by
  exact createRule_operator_shape d now

/-- Witness for C9 at concrete inputs: the zero-matcher dialog yields
the bare process.path operator; the one-matcher dialog yields the list
operator wrapping process.path and dest.host. -/
theorem c9_witness :
    (promptNoMatcher.create_rule 0).operator =
      Operator.simple "process.path" "/usr/bin/curl" ∧
    (promptOneMatcher.create_rule 0).operator =
      Operator.mk .list "list" "" false
        [Operator.simple "process.path" "/usr/bin/curl",
         Operator.simple "dest.host" "example.com"] := by
  constructor
  · exact (c9_prompt_operator_shape promptNoMatcher 0).1 rfl
  · have hne : promptOneMatcher.optionalOps ≠ [] := by
      intro h
      have h2 : ([Operator.simple "dest.host" "example.com"] : List Operator) = [] := h
      exact List.noConfusion h2
    exact (c9_prompt_operator_shape promptOneMatcher 0).2 hne

/-- C10: every rule a prompt resolution produces (confirm and cancel
alike, for every matcher selection) constrains the process path: its
operator is either the simple process.path operator carrying the
connection's process path, or a composite list operator whose first
nested operator is exactly that operator. -/
theorem c10_prompt_rule_always_matches_process_path (d : PromptDialog) (now : Nat) :
    ((d.confirmRule now).operator =
        Operator.simple "process.path" d.connection.process_path ∨
      ((d.confirmRule now).operator.op_type = .list ∧
       (d.confirmRule now).operator.list.head? =
         some (Operator.simple "process.path" d.connection.process_path))) ∧
    ((d.cancelRule now).operator =
        Operator.simple "process.path" d.connection.process_path ∨
      ((d.cancelRule now).operator.op_type = .list ∧
       (d.cancelRule now).operator.list.head? =
         some (Operator.simple "process.path" d.connection.process_path))) := by
  have hconf : (d.confirmRule now).operator = (d.create_rule now).operator := rfl
  have hcanc : (d.cancelRule now).operator = (d.create_rule now).operator := rfl
  rw [hconf, hcanc]
  cases hop : d.optionalOps with
  | nil =>
    rw [(createRule_operator_shape d now).1 hop]
    exact ⟨Or.inl rfl, Or.inl rfl⟩
  | cons o rest =>
    rw [(createRule_operator_shape d now).2 (by rw [hop]; exact List.cons_ne_nil o rest)]
    exact ⟨Or.inr ⟨rfl, rfl⟩, Or.inr ⟨rfl, rfl⟩⟩

/-! ### C6 / C7: rules table round trip and boolean encoding -/

/-- Membership in an insertByName insertion. -/
theorem mem_insertByName {x r : RuleRow} {l : List RuleRow} :
    x ∈ insertByName r l ↔ x = r ∨ x ∈ l := by
  induction l with
  | nil => simp [insertByName]
  | cons y ys ih =>
    simp only [insertByName]
    split
    · simp [eq_comm]
    · simp only [List.mem_cons, ih]
      constructor
      · rintro (h | h | h)
        · exact Or.inr (Or.inl h)
        · exact Or.inl h
        · exact Or.inr (Or.inr h)
      · rintro (h | h | h)
        · exact Or.inr (Or.inl h)
        · exact Or.inl h
        · exact Or.inr (Or.inr h)

/-- Sorting rule rows by name preserves membership. -/
theorem mem_sortRowsByName {x : RuleRow} {l : List RuleRow} :
    x ∈ sortRowsByName l ↔ x ∈ l := by
  induction l with
  | nil => simp [sortRowsByName]
  | cons y ys ih =>
    simp only [sortRowsByName, List.foldr_cons, List.mem_cons]
    rw [show ys.foldr insertByName [] = sortRowsByName ys from rfl] at *
    rw [mem_insertByName, ih]

/-- Decoding the row written for a rule restores every non-timestamp
scalar field and leaves the nested operator list empty. -/
theorem rowToRule_mkRuleRow (now : Nat) (node : String) (r : Rule) :
    rowToRule (mkRuleRow now node r) =
      { r with
        enabled := r.enabled
        operator := Operator.mk r.operator.op_type r.operator.operand
          r.operator.data r.operator.sensitive []
        created := r.created
        updated := none } := by
  simp only [rowToRule, mkRuleRow]
  congr 1
  · exact decide_boolStr_eq_true r.enabled
  · exact decide_boolStr_eq_true r.precedence
  · exact decide_boolStr_eq_true r.nolog
  · exact ruleAction_fromStr_display r.action
  · exact ruleDuration_fromStr_display r.duration
  · congr 1
    · exact operatorType_fromStr_display r.operator.op_type
    · exact decide_boolStr_eq_true r.operator.sensitive

/-- C6 counterexample: a rule whose operator carries a non-empty
nested list comes back from insert-then-select with an empty nested
list (the rules table has no column for it), so not all fields of the
claim's list are preserved. -/
theorem c6_counterexample :
    ((Database.openEmpty.insert_rule 0 "N" listOpRule).select_rules "N").map
      (fun r => r.operator.list) = [[]] ∧
    listOpRule.operator.list ≠ [] := by
  constructor
  · rfl
  · intro h
    have h2 : (Operator.simple "process.path" "/usr/bin/curl" ::
        [Operator.simple "dest.host" "example.com"] : List Operator) = [] := h
    exact List.noConfusion h2

/-- C6 amended: inserting a rule and selecting the node's rules yields
a rule agreeing with the original on name, description, enabled,
precedence, nolog, action, duration, operator type, operand, data and
sensitivity (timestamps excepted, as the claim already allows), but
the nested operator list is not persisted and reads back empty. -/
theorem c6_insert_select_roundtrip (db : Database) (now : Nat)
    (node : String) (r : Rule) :
    ∃ r' ∈ (db.insert_rule now node r).select_rules node,
      r'.name = r.name ∧ r'.description = r.description ∧
      r'.enabled = r.enabled ∧ r'.precedence = r.precedence ∧
      r'.nolog = r.nolog ∧ r'.action = r.action ∧
      r'.duration = r.duration ∧
      r'.operator.op_type = r.operator.op_type ∧
      r'.operator.operand = r.operator.operand ∧
      r'.operator.data = r.operator.data ∧
      r'.operator.sensitive = r.operator.sensitive ∧
      r'.operator.list = [] := by
  refine ⟨rowToRule (mkRuleRow now node r), ?_, ?_⟩
  · simp only [Database.select_rules, Database.insert_rule, List.mem_map]
    refine ⟨mkRuleRow now node r, ?_, rfl⟩
    rw [mem_sortRowsByName, List.mem_filter]
    constructor
    · exact List.mem_append_right _ (List.mem_singleton.mpr rfl)
    · simp [mkRuleRow]
  · rw [rowToRule_mkRuleRow]
    refine ⟨rfl, rfl, rfl, rfl, rfl, rfl, rfl, ?_, ?_, ?_, ?_, ?_⟩ <;> rfl

/-- C7: both insert_rule and update_rule store the four boolean columns
(enabled, precedence, operator sensitivity, nolog) as the strings
rendered by bool::to_string, which are exactly "true" and "false" for
the two boolean values. -/
theorem c7_rule_booleans_stored_as_strings :
    (∀ (now : Nat) (db : Database) (node : String) (r : Rule),
      ∃ row ∈ (db.insert_rule now node r).rules,
        row.node = node ∧ row.name = r.name ∧
        row.enabled = boolStr r.enabled ∧
        row.precedence = boolStr r.precedence ∧
        row.operator_sensitive = boolStr r.operator.sensitive ∧
        row.nolog = boolStr r.nolog) ∧
    (∀ (now : Nat) (db : Database) (node : String) (r : Rule)
      (row : RuleRow), row ∈ (db.update_rule now node r).rules →
      row.node = node → row.name = r.name →
      row.enabled = boolStr r.enabled ∧
      row.precedence = boolStr r.precedence ∧
      row.operator_sensitive = boolStr r.operator.sensitive ∧
      row.nolog = boolStr r.nolog) ∧
    (boolStr true = "true" ∧ boolStr false = "false") := by
  refine ⟨?_, ?_, rfl, rfl⟩
  · intro now db node r
    exact ⟨mkRuleRow now node r,
      List.mem_append_right _ (List.mem_singleton.mpr rfl),
      rfl, rfl, rfl, rfl, rfl, rfl⟩
  · intro now db node r row hmem hnode hname
    simp only [Database.update_rule, List.mem_map] at hmem
    obtain ⟨x, _, hx⟩ := hmem
    by_cases hk : x.node = node ∧ x.name = r.name
    · rw [if_pos hk] at hx
      subst hx
      exact ⟨rfl, rfl, rfl, rfl⟩
    · rw [if_neg hk] at hx
      subst hx
      exact absurd ⟨hnode, hname⟩ hk

/-- Witness for C7: inserting boolRule into the empty store writes the
strings false, true, true, true for its four boolean fields, and
updating it back with flipped booleans rewrites the row in place. -/
theorem c7_witness :
    (∃ row ∈ (Database.openEmpty.insert_rule 0 "N" boolRule).rules,
      row.node = "N" ∧ row.name = "bools" ∧
      row.enabled = "false" ∧ row.precedence = "true" ∧
      row.operator_sensitive = "true" ∧ row.nolog = "true") ∧
    ((mkRuleRow 0 "N" boolRule).enabled = boolStr boolRule.enabled ∧
     (mkRuleRow 0 "N" boolRule).precedence = boolStr boolRule.precedence ∧
     (mkRuleRow 0 "N" boolRule).operator_sensitive =
       boolStr boolRule.operator.sensitive ∧
     (mkRuleRow 0 "N" boolRule).nolog = boolStr boolRule.nolog) := by
  constructor
  · obtain ⟨row, hmem, h⟩ :=
      c7_rule_booleans_stored_as_strings.1 0 Database.openEmpty "N" boolRule
    exact ⟨row, hmem, h.1, h.2.1, h.2.2.1, h.2.2.2.1, h.2.2.2.2.1, h.2.2.2.2.2⟩
  · exact (c7_rule_booleans_stored_as_strings.2.1 0
      (Database.openEmpty.insert_rule 0 "N" boolRule) "N" boolRule
      (mkRuleRow 0 "N" boolRule)
      (by rw [show (Database.openEmpty.insert_rule 0 "N" boolRule).update_rule 0 "N" boolRule =
        Database.openEmpty.insert_rule 0 "N" boolRule from rfl]
          exact List.mem_singleton.mpr rfl)
      rfl rfl)

/-! ### C2: change signals per command -/

/-- C2 counterexample: the claim of exactly one signal per command
fails in both directions at concrete inputs: NotificationChannelOpened
emits no signal, and a StatsUpdate carrying one event emits two
(StatsUpdated then ConnectionsUpdated). -/
theorem c2_counterexample :
    ((processMessage 0 (AppState.new Database.openEmpty)
      (.notificationChannelOpened "peer" { capacity := 100, buffered := [] })).2).length
      = 0 ∧
    ((processMessage 0 (AppState.new Database.openEmpty)
      (.statsUpdate "peer" oneEventStats)).2).length = 2 := by
  exact ⟨rfl, rfl⟩

/-- C2 amended: each accepted command mutates state and/or persists
and then emits the fixed per-command signal list (never more than
two): NodeConnected and NodeDisconnected emit NodeChanged; StatsUpdate
emits StatsUpdated, followed by ConnectionsUpdated exactly when it
carries events; ConnectionEvent and NewConnection emit
ConnectionsUpdated; ConnectionPrompt emits PromptReceived; the four
rule commands emit RulesUpdated; FirewallConfigUpdate emits
FirewallUpdated; AlertReceived emits AlertsUpdated; and
NotificationChannelOpened, NotificationReply, SendNotification and
PromptResponse emit no signal at all. -/
theorem c2_signals_per_command (now : Nat) (st : AppState) (msg : AppMessage) :
    (processMessage now st msg).2 = expectedSignals msg ∧
    (expectedSignals msg).length ≤ 2 := by
  cases msg with
  | statsUpdate addr stats =>
    constructor
    · by_cases h : stats.events.isEmpty <;>
        simp [processMessage, expectedSignals, h]
    · by_cases h : stats.events.isEmpty <;>
        simp [expectedSignals, h]
  | _ => exact ⟨rfl, by norm_num [expectedSignals]⟩

/-! ### C3: NodeDisconnected processing -/

/-- Looking up a key after updating it maps the stored node. -/
theorem assocGet_assocUpdate (k : String) (f : Node → Node)
    (l : List (String × Node)) :
    assocGet k (assocUpdate k f l) = (assocGet k l).map f := by
  induction l with
  | nil => rfl
  | cons p rest ih =>
    by_cases h : p.1 = k
    · simp [assocGet, assocUpdate, h]
    · simp [assocGet, assocUpdate, h, ih]

/-- Looking up a key in a channel map purged of that key yields
nothing. -/
theorem chanGet_filter_self (k : String) (l : List (String × NotifChannel)) :
    chanGet k (l.filter (fun p => ¬ p.1 = k)) = none := by
  induction l with
  | nil => rfl
  | cons p rest ih =>
    simp only [List.filter_cons]
    split
    · rename_i hcond
      have hne : ¬ p.1 = k := by simpa using hcond
      have ih' : chanGet k
          (List.filter (fun p => !decide (p.1 = k)) rest) = none := by
        simpa using ih
      simp [chanGet, hne, ih']
    · exact ih

/-- C3 counterexample: disconnecting node A with an in-flight prompt
for A leaves the pending-prompt queue untouched — processing
NodeDisconnected does not cancel the peer's prompts, contradicting the
claim's part (2). -/
theorem c3_counterexample :
    ((processMessage 0 stWithPrompt (.nodeDisconnected "A")).1).pending_prompts =
      [{ connection := curlConn, node_addr := "A" }] ∧
    ([{ connection := curlConn, node_addr := "A" }] : List PendingPrompt) ≠ [] := by
  exact ⟨rfl, fun h => List.noConfusion h⟩

/-- C3 amended: NodeDisconnected (1) flips the node's status to
Disconnected while keeping its record, (3) removes the peer's outbound
notification-queue entry, and (4) when the peer was the active
address, retargets it to some remaining connected node or unsets it
(and leaves it alone otherwise) — but the pending prompts are left
exactly as they were, so in-flight prompts for the peer are not
cancelled. -/
theorem c3_node_disconnected (now : Nat) (st : AppState) (addr : String) :
    (∀ n, assocGet addr st.nodes.nodes = some n →
      assocGet addr
        ((processMessage now st (.nodeDisconnected addr)).1).nodes.nodes =
        some n.disconnect) ∧
    chanGet addr
      ((processMessage now st (.nodeDisconnected addr)).1).notification_channels
      = none ∧
    ((processMessage now st (.nodeDisconnected addr)).1).pending_prompts =
      st.pending_prompts ∧
    (st.nodes.active_node = some addr →
      (((processMessage now st (.nodeDisconnected addr)).1).nodes.active_node = none →
        ∀ p ∈ ((processMessage now st (.nodeDisconnected addr)).1).nodes.nodes,
          ¬ p.2.status = .connected) ∧
      (∀ a', ((processMessage now st (.nodeDisconnected addr)).1).nodes.active_node
          = some a' →
        ∃ n', (a', n') ∈
          ((processMessage now st (.nodeDisconnected addr)).1).nodes.nodes ∧
          n'.status = .connected)) ∧
    (st.nodes.active_node ≠ some addr →
      ((processMessage now st (.nodeDisconnected addr)).1).nodes.active_node =
        st.nodes.active_node) := by
  refine ⟨?_, ?_, rfl, ?_, ?_⟩
  · intro n h
    show assocGet addr (assocUpdate addr Node.disconnect st.nodes.nodes) = _
    rw [assocGet_assocUpdate, h]
    rfl
  · exact chanGet_filter_self addr st.notification_channels
  · intro hact
    constructor
    · intro hnone p hp
      have hfind : ((assocUpdate addr Node.disconnect st.nodes.nodes).find?
          (fun q => q.2.status = .connected)).map (·.1) = none := by
        have : ((processMessage now st (.nodeDisconnected addr)).1).nodes.active_node =
            ((assocUpdate addr Node.disconnect st.nodes.nodes).find?
              (fun q => q.2.status = .connected)).map (·.1) := by
          show (NodeManager.remove_node st.nodes addr).active_node = _
          simp [NodeManager.remove_node, hact]
        rw [← this, hnone]
      rw [Option.map_eq_none'] at hfind
      have := List.find?_eq_none.mp hfind p hp
      simpa using this
    · intro a' hsome
      have hfind : ((assocUpdate addr Node.disconnect st.nodes.nodes).find?
          (fun q => q.2.status = .connected)).map (·.1) = some a' := by
        have : ((processMessage now st (.nodeDisconnected addr)).1).nodes.active_node =
            ((assocUpdate addr Node.disconnect st.nodes.nodes).find?
              (fun q => q.2.status = .connected)).map (·.1) := by
          show (NodeManager.remove_node st.nodes addr).active_node = _
          simp [NodeManager.remove_node, hact]
        rw [← this, hsome]
      rw [Option.map_eq_some'] at hfind
      obtain ⟨pr, hpr, hfst⟩ := hfind
      refine ⟨pr.2, ?_, ?_⟩
      · have hmem := List.mem_of_find?_eq_some hpr
        have : (a', pr.2) = pr := by
          rw [← hfst]
        rw [this]
        exact hmem
      · have := List.find?_some hpr
        simpa using this
  · intro hne
    show (NodeManager.remove_node st.nodes addr).active_node = _
    simp [NodeManager.remove_node, hne]

/-- Witness for C3 at the concrete state stWithPrompt: node A's record
survives with status Disconnected, its channel entry is gone, the
prompt queue is untouched, and the active cursor is retargeted. -/
theorem c3_witness :
    assocGet "A"
      ((processMessage 0 stWithPrompt (.nodeDisconnected "A")).1).nodes.nodes =
      some nodeA.disconnect ∧
    chanGet "A"
      ((processMessage 0 stWithPrompt (.nodeDisconnected "A")).1).notification_channels
      = none ∧
    ((processMessage 0 stWithPrompt (.nodeDisconnected "A")).1).pending_prompts =
      stWithPrompt.pending_prompts := by
  have h := c3_node_disconnected 0 stWithPrompt "A"
  exact ⟨h.1 nodeA rfl, h.2.1, h.2.2.1⟩

/-! ### C4: ring capacities and eviction order -/

/-- Truncating after appending an already-truncated tail is the same
as truncating the full append. -/
theorem take_append_take {α : Type} (n : Nat) (l m : List α) :
    (l ++ m.take n).take n = (l ++ m).take n := by
  rw [List.take_append_eq_append_take, List.take_append_eq_append_take,
      List.take_take, inf_eq_left.mpr (Nat.sub_le n l.length)]

/-- Folding add_connection leaves the capacities and the alert ring
unchanged. -/
theorem foldl_add_connection_fields (evs : List Event) (st : AppState) :
    (evs.foldl AppState.add_connection st).max_connections = st.max_connections ∧
    (evs.foldl AppState.add_connection st).max_alerts = st.max_alerts ∧
    (evs.foldl AppState.add_connection st).alerts = st.alerts ∧
    (evs ≠ [] →
      (evs.foldl AppState.add_connection st).connections.length ≤
        st.max_connections) := by
  induction evs generalizing st with
  | nil => exact ⟨rfl, rfl, rfl, fun h => absurd rfl h⟩
  | cons e rest ih =>
    have step := ih (st.add_connection e)
    refine ⟨step.1, step.2.1, step.2.2.1, fun _ => ?_⟩
    cases rest with
    | nil =>
      show (st.add_connection e).connections.length ≤ st.max_connections
      rw [show (st.add_connection e).connections =
        (e :: st.connections).take st.max_connections from rfl,
        List.length_take]
      exact Nat.min_le_left _ _
    | cons e2 rest2 =>
      have := step.2.2.2 (List.cons_ne_nil e2 rest2)
      exact this

/-- Folding add_connection from a ring already at or under capacity
yields the newest entries of the appended events and the prior ring,
truncated at capacity. -/
theorem foldl_add_connection_ring (evs : List Event) (st : AppState)
    (h : st.connections = st.connections.take st.max_connections) :
    (evs.foldl AppState.add_connection st).connections =
      (evs.reverse ++ st.connections).take st.max_connections := by
  induction evs generalizing st with
  | nil => simpa using h
  | cons e rest ih =>
    have hstep : (st.add_connection e).connections =
        (e :: st.connections).take st.max_connections := rfl
    have hmax : (st.add_connection e).max_connections = st.max_connections := rfl
    have h' : (st.add_connection e).connections =
        (st.add_connection e).connections.take
          (st.add_connection e).max_connections := by
      rw [hstep, hmax, List.take_take, inf_idem]
    rw [List.foldl_cons, ih (st.add_connection e) h', hstep, hmax,
        take_append_take, List.reverse_cons, List.append_assoc,
        List.singleton_append]

/-- send_notification never touches the rings or the capacities. -/
theorem send_notification_fields (st : AppState) (addr : String)
    (action : NotificationAction) :
    (st.send_notification addr action).1.connections = st.connections ∧
    (st.send_notification addr action).1.alerts = st.alerts ∧
    (st.send_notification addr action).1.max_connections = st.max_connections ∧
    (st.send_notification addr action).1.max_alerts = st.max_alerts := by
  simp only [AppState.send_notification]
  cases chanGet addr st.notification_channels with
  | none => exact ⟨rfl, rfl, rfl, rfl⟩
  | some ch =>
    dsimp only
    split
    · exact ⟨rfl, rfl, rfl, rfl⟩
    · exact ⟨rfl, rfl, rfl, rfl⟩

/-- Each command preserves the capacities and keeps both rings at or
under capacity. -/
theorem processMessage_bounds (now : Nat) (st : AppState) (msg : AppMessage) :
    (processMessage now st msg).1.max_connections = st.max_connections ∧
    (processMessage now st msg).1.max_alerts = st.max_alerts ∧
    (st.connections.length ≤ st.max_connections →
      (processMessage now st msg).1.connections.length ≤ st.max_connections) ∧
    (st.alerts.length ≤ st.max_alerts →
      (processMessage now st msg).1.alerts.length ≤ st.max_alerts) := by
  cases msg with
  | statsUpdate addr stats =>
    have hf := foldl_add_connection_fields stats.events st
    refine ⟨hf.1, hf.2.1, ?_, ?_⟩
    · intro h
      cases hevs : stats.events with
      | nil =>
        simpa [processMessage, hevs] using h
      | cons e rest =>
        have := (foldl_add_connection_fields stats.events st).2.2.2
          (by rw [hevs]; exact List.cons_ne_nil e rest)
        simpa [processMessage] using this
    · intro h
      simpa [processMessage, hf.2.2.1] using h
  | connectionEvent addr event =>
    refine ⟨rfl, rfl, fun _ => ?_, fun h => h⟩
    rw [show (processMessage now st (.connectionEvent addr event)).1.connections =
      (event :: st.connections).take st.max_connections from rfl,
      List.length_take]
    exact Nat.min_le_left _ _
  | newConnection addr connection =>
    refine ⟨rfl, rfl, fun _ => ?_, fun h => h⟩
    rw [show (processMessage now st (.newConnection addr connection)).1.connections =
      (Event.new now connection none :: st.connections).take st.max_connections
      from rfl, List.length_take]
    exact Nat.min_le_left _ _
  | alertReceived alert =>
    refine ⟨rfl, rfl, fun h => h, fun _ => ?_⟩
    rw [show (processMessage now st (.alertReceived alert)).1.alerts =
      (alert :: st.alerts).take st.max_alerts from rfl, List.length_take]
    exact Nat.min_le_left _ _
  | sendNotification addr action =>
    have hf := send_notification_fields st addr action
    exact ⟨hf.2.2.1, hf.2.2.2,
      fun h => by rw [show (processMessage now st (.sendNotification addr action)).1 =
        (st.send_notification addr action).1 from rfl, hf.1]; exact h,
      fun h => by rw [show (processMessage now st (.sendNotification addr action)).1 =
        (st.send_notification addr action).1 from rfl, hf.2.1]; exact h⟩
  | _ => exact ⟨rfl, rfl, fun h => h, fun h => h⟩

/-- Draining any command list preserves the capacities and keeps both
rings bounded. -/
theorem runMessages_bounds (now : Nat) (st : AppState) (msgs : List AppMessage) :
    (runMessages now st msgs).max_connections = st.max_connections ∧
    (runMessages now st msgs).max_alerts = st.max_alerts ∧
    (st.connections.length ≤ st.max_connections →
      (runMessages now st msgs).connections.length ≤ st.max_connections) ∧
    (st.alerts.length ≤ st.max_alerts →
      (runMessages now st msgs).alerts.length ≤ st.max_alerts) := by
  induction msgs generalizing st with
  | nil => exact ⟨rfl, rfl, fun h => h, fun h => h⟩
  | cons m rest ih =>
    have hp := processMessage_bounds now st m
    have hr := ih (processMessage now st m).1
    refine ⟨hr.1.trans hp.1, hr.2.1.trans hp.2.1, ?_, ?_⟩
    · intro h
      have h1 := hp.2.2.1 h
      rw [← hp.1] at h1
      have h2 := hr.2.2.1 h1
      rwa [hp.1] at h2
    · intro h
      have h1 := hp.2.2.2 h
      rw [← hp.2.1] at h1
      have h2 := hr.2.2.2 h1
      rwa [hp.2.1] at h2

/-- A pure stream of ConnectionEvent commands acts as the fold of
add_connection. -/
theorem runMessages_connectionEvents (now : Nat) (st : AppState)
    (evs : List Event) :
    runMessages now st (evs.map (fun e => AppMessage.connectionEvent "" e)) =
      evs.foldl AppState.add_connection st := by
  induction evs generalizing st with
  | nil => rfl
  | cons e rest ih => exact ih (st.add_connection e)

/-- C4: the connection ring never exceeds max_connections and the
alert ring never exceeds max_alerts across any command sequence from a
fresh state (whose capacities default to 1000 and 500); and feeding
max_connections plus k ConnectionEvent commands into an empty ring
leaves exactly the max_connections most recently appended events,
newest first — which for k at most max_connections reads as the k most
recently appended followed by the newest remainder of the earlier
ones, so eviction always discards the oldest. -/
theorem c4_ring_capacity_and_eviction :
    (∀ (db : Database) (now : Nat) (msgs : List AppMessage),
      (runMessages now (AppState.new db) msgs).connections.length ≤ 1000 ∧
      (runMessages now (AppState.new db) msgs).alerts.length ≤ 500) ∧
    (∀ (now : Nat) (st : AppState) (evs : List Event) (k : Nat),
      st.connections = [] →
      evs.length = st.max_connections + k →
      (runMessages now st
          (evs.map (fun e => AppMessage.connectionEvent "" e))).connections =
        evs.reverse.take st.max_connections ∧
      (runMessages now st
          (evs.map (fun e => AppMessage.connectionEvent "" e))).connections.length =
        st.max_connections ∧
      (k ≤ st.max_connections →
        (runMessages now st
            (evs.map (fun e => AppMessage.connectionEvent "" e))).connections =
          evs.reverse.take k ++
            (evs.take st.max_connections).reverse.take (st.max_connections - k))) := by
  constructor
  · intro db now msgs
    have h := runMessages_bounds now (AppState.new db) msgs
    exact ⟨h.2.2.1 (by simp [AppState.new]), h.2.2.2 (by simp [AppState.new])⟩
  · intro now st evs k hempty hlen
    have hchar : (runMessages now st
        (evs.map (fun e => AppMessage.connectionEvent "" e))).connections =
        evs.reverse.take st.max_connections := by
      rw [runMessages_connectionEvents,
          foldl_add_connection_ring evs st (by rw [hempty]; simp), hempty,
          List.append_nil]
    refine ⟨hchar, ?_, ?_⟩
    · rw [hchar, List.length_take, List.length_reverse, hlen]
      exact inf_eq_left.mpr (Nat.le_add_right _ _)
    · intro hk
      have hM : k + (st.max_connections - k) = st.max_connections :=
        Nat.add_sub_cancel' hk
      have hlen2 : evs.length - k = st.max_connections := by omega
      rw [hchar]
      nth_rewrite 1 [← hM]
      rw [List.take_add, List.drop_reverse, hlen2]

/-- Witness for C4 on a small concrete instance: a fresh state with
capacity lowered to two receives three ConnectionEvent commands and
retains exactly the two newest events, newest first. -/
theorem c4_witness :
    (runMessages 0 smallRingState
      ([ev1, ev2, ev3].map (fun e => AppMessage.connectionEvent "" e))).connections
      = [ev3, ev2] ∧
    (runMessages 0 smallRingState
      ([ev1, ev2, ev3].map (fun e => AppMessage.connectionEvent "" e))).connections.length
      = smallRingState.max_connections := by
  have h := c4_ring_capacity_and_eviction.2 0 smallRingState [ev1, ev2, ev3] 1
    rfl rfl
  exact ⟨h.1.trans rfl, h.2.1⟩

/-! ### C5: SendNotification semantics -/

/-- Looking up a key right after inserting it yields the inserted
channel. -/
theorem chanGet_chanInsert (k : String) (v : NotifChannel)
    (l : List (String × NotifChannel)) :
    chanGet k (chanInsert k v l) = some v := by
  induction l with
  | nil => simp [chanInsert, chanGet]
  | cons p rest ih =>
    by_cases h : p.1 = k
    · simp [chanInsert, chanGet, h]
    · simp [chanInsert, chanGet, h, ih]

/-- C5 counterexample: with the peer's queue full (capacity 100, one
hundred buffered notifications), send_notification resolves to the
awaiting branch of the bounded send — tokio's Sender::send suspends
the caller until capacity frees up — rather than dropping the
notification as the claim states; nothing is enqueued and nothing is
discarded while the actor waits. -/
theorem c5_counterexample :
    (fullChanState.send_notification "A" .enableInterception).2 =
      SendOutcome.awaitsCapacity ∧
    SendOutcome.awaitsCapacity ≠ SendOutcome.droppedNoChannel ∧
    (fullChanState.send_notification "A" .enableInterception).1.notification_channels
      = fullChanState.notification_channels := by
  refine ⟨rfl, fun h => SendOutcome.noConfusion h, rfl⟩

/-- C5 amended: when no outbound queue is registered for the peer, a
warning is logged and the command is dropped with no state change (as
the claim states); when a queue exists, the next notification id is
drawn and the notification is delivered by a bounded send — appended
to the queue when capacity is free, but when the queue is full the
send suspends the actor until capacity appears rather than dropping
the notification. -/
theorem c5_send_notification (st : AppState) (addr : String)
    (action : NotificationAction) :
    (chanGet addr st.notification_channels = none →
      (st.send_notification addr action).1 = st ∧
      (st.send_notification addr action).2 = .droppedNoChannel) ∧
    (∀ ch, chanGet addr st.notification_channels = some ch →
      ch.buffered.length < ch.capacity →
      (st.send_notification addr action).2 = .delivered ∧
      chanGet addr (st.send_notification addr action).1.notification_channels =
        some { ch with buffered := ch.buffered ++
          [create_notification st.notification_id_gen addr "opensnitch-tui"
            action none] } ∧
      (st.send_notification addr action).1.notification_id_gen =
        st.notification_id_gen + 1) ∧
    (∀ ch, chanGet addr st.notification_channels = some ch →
      ¬ ch.buffered.length < ch.capacity →
      (st.send_notification addr action).2 = .awaitsCapacity ∧
      (st.send_notification addr action).1.notification_channels =
        st.notification_channels) := by
  refine ⟨?_, ?_, ?_⟩
  · intro h
    simp [AppState.send_notification, h]
  · intro ch h hlt
    simp only [AppState.send_notification, h]
    rw [if_pos hlt]
    exact ⟨rfl, chanGet_chanInsert _ _ _, rfl⟩
  · intro ch h hge
    simp only [AppState.send_notification, h]
    rw [if_neg hge]
    exact ⟨rfl, rfl⟩

/-- Witness for C5 at concrete states: no channel (fresh state) drops
the command with the state unchanged; an empty channel delivers; a
full channel reaches the awaiting branch. -/
theorem c5_witness :
    ((AppState.new Database.openEmpty).send_notification "A"
      .enableInterception).2 = .droppedNoChannel ∧
    (emptyChanState.send_notification "A" .enableInterception).2 = .delivered ∧
    (fullChanState.send_notification "A" .enableInterception).2 =
      .awaitsCapacity := by
  have h1 := (c5_send_notification (AppState.new Database.openEmpty) "A"
    .enableInterception).1 rfl
  have h2 := (c5_send_notification emptyChanState "A" .enableInterception).2.1
    { capacity := 100, buffered := [] } rfl (by decide)
  have h3 := (c5_send_notification fullChanState "A" .enableInterception).2.2
    { capacity := 100, buffered := List.replicate 100 dummyNotif } rfl
    (by decide)
  exact ⟨h1.2, h2.1, h3.1⟩

end OpensnitchTui
